import Mathlib

/-!
# A verification development for the `cppup` project generator

This file gives a shallow embedding, in Lean 4, of the core data model and
operations of the `cppup` C++ project-scaffolding CLI (a Rust program), and
proves properties of that embedding.

Conventions of the embedding:
* Rust `String` / `&str` values are modelled by Lean `String`.  Rust's
  `str::len` is the UTF-8 byte length and is modelled by
  `String.utf8ByteSize`; `str::chars` iterates Unicode scalar values and is
  modelled by `String.toList` / `String.all`.
* Filesystem paths are modelled as lists of path segments (`List String`);
  `Path::join` is list append.
* The filesystem itself is modelled as a record of the directories and files
  that exist.  File contents are identified by the name of the template that
  was rendered into the file (the rendering of template text is not modelled;
  which template goes to which path is).
* Fallible Rust functions returning `anyhow::Result` are modelled with
  `Except` over small error inductives, one constructor per distinct
  `anyhow!` message of the source.
* Subprocess spawns (`std::process::Command::output`) are modelled by an
  explicit input describing the outcome of the spawn.
-/

deriving instance DecidableEq for Except

/-! ## Enumerated configuration types (src/project/mod.rs, src/project/config.rs) -/

/-- Type of C++ project to generate (src/project/config.rs `ProjectType`). -/
inductive ProjectType where
  | Executable
  | Library
deriving DecidableEq, Repr

/-- C++ language standard version (src/project/config.rs `CppStandard`). -/
inductive CppStandard where
  | Cpp11
  | Cpp14
  | Cpp17
  | Cpp20
  | Cpp23
deriving DecidableEq, Repr

/-- Build system options (src/project/mod.rs `BuildSystem`). -/
inductive BuildSystem where
  | CMake
  | Make
deriving DecidableEq, Repr

/-- Testing framework options (src/project/mod.rs `TestFramework`). -/
inductive TestFramework where
  | Doctest
  | GTest
  | Catch2
  | BoostTest
  | None
deriving DecidableEq, Repr

/-- Package manager options (src/project/mod.rs `PackageManager`). -/
inductive PackageManager where
  | Conan
  | Vcpkg
  | None
deriving DecidableEq, Repr

/-- License options (src/project/mod.rs `License`). -/
inductive License where
  | MIT
  | Apache2
  | GPL3
  | BSD3
deriving DecidableEq, Repr

/-- `Display for ProjectType` (src/project/config.rs). -/
def ProjectType.display : ProjectType → String
  | .Executable => "executable"
  | .Library => "library"

/-- `Display for CppStandard` (src/project/config.rs). -/
def CppStandard.display : CppStandard → String
  | .Cpp11 => "11"
  | .Cpp14 => "14"
  | .Cpp17 => "17"
  | .Cpp20 => "20"
  | .Cpp23 => "23"

/-- `Display for BuildSystem` (src/project/mod.rs). -/
def BuildSystem.display : BuildSystem → String
  | .CMake => "cmake"
  | .Make => "make"

/-- `Display for TestFramework` (src/project/mod.rs). -/
def TestFramework.display : TestFramework → String
  | .Doctest => "doctest"
  | .GTest => "gtest"
  | .Catch2 => "catch2"
  | .BoostTest => "boost"
  | .None => "none"

/-- `Display for PackageManager` (src/project/mod.rs). -/
def PackageManager.display : PackageManager → String
  | .Conan => "conan"
  | .Vcpkg => "vcpkg"
  | .None => "none"

/-- `Display for License` (src/project/mod.rs). -/
def License.display : License → String
  | .MIT => "MIT"
  | .Apache2 => "Apache-2.0"
  | .GPL3 => "GPL-3.0"
  | .BSD3 => "BSD-3-Clause"

/-- Code quality tools configuration (src/project/mod.rs `QualityConfig`). -/
structure QualityConfig where
  enable_clang_tidy : Bool
  enable_cppcheck : Bool
  enable_include_what_you_use : Bool
deriving DecidableEq, Repr

/-- `QualityConfig::new` (src/project/mod.rs): each flag is set when the
corresponding tool name occurs in the input slice. -/
def QualityConfig.new (tools : List String) : QualityConfig where
  enable_clang_tidy := tools.contains "clang-tidy"
  enable_cppcheck := tools.contains "cppcheck"
  enable_include_what_you_use := tools.contains "include-what-you-use"

/-- `Display for QualityConfig` (src/project/mod.rs): the enabled tool names,
in declaration order, joined with `", "`. -/
def QualityConfig.display (q : QualityConfig) : String :=
  let tools :=
    (if q.enable_clang_tidy then ["clang-tidy"] else [])
    ++ (if q.enable_cppcheck then ["cppcheck"] else [])
    ++ (if q.enable_include_what_you_use then ["include-what-you-use"] else [])
  String.intercalate ", " tools

/-- Code formatter configuration (src/project/mod.rs `CodeFormatter`). -/
structure CodeFormatter where
  enable_clang_format : Bool
  enable_cmake_format : Bool
deriving DecidableEq, Repr

/-- `CodeFormatter::new` (src/project/mod.rs). -/
def CodeFormatter.new (tools : List String) : CodeFormatter where
  enable_clang_format := tools.contains "clang-format"
  enable_cmake_format := tools.contains "cmake-format"

/-- `Display for CodeFormatter` (src/project/mod.rs). -/
def CodeFormatter.display (q : CodeFormatter) : String :=
  let tools :=
    (if q.enable_clang_format then ["clang-format"] else [])
    ++ (if q.enable_cmake_format then ["cmake-format"] else [])
  String.intercalate ", " tools

/-! ## Character classes

`validate_project_name` (src/project/config.rs) uses Rust's
`char::is_numeric` (Unicode `Numeric` general categories Nd/Nl/No) and
`char::is_alphanumeric` (`Alphabetic` Unicode property or `Numeric`).
The two classifiers are tabulated here exactly for the Basic Latin and
Latin-1 Supplement blocks (code points below `0x100`), which cover every
concrete string appearing in this development; code points of higher blocks
are classified as neither alphabetic nor numeric.  Every universally
quantified theorem below uses the same classifier on its code side and on
its specification side, so none of them depends on the classification of
the higher blocks. -/

/-- Model of Rust `char::is_numeric` (see the section comment above). -/
def isNumericChar (c : Char) : Bool :=
  c.isDigit || c.val == 0xB2 || c.val == 0xB3 || c.val == 0xB9 ||
    c.val == 0xBC || c.val == 0xBD || c.val == 0xBE

/-- Model of Rust `char::is_alphabetic` (see the section comment above). -/
def isAlphabeticChar (c : Char) : Bool :=
  c.isAlpha || c.val == 0xAA || c.val == 0xB5 || c.val == 0xBA ||
    (0xC0 ≤ c.val && c.val ≤ 0xD6) || (0xD8 ≤ c.val && c.val ≤ 0xF6) ||
    (0xF8 ≤ c.val && c.val ≤ 0xFF)

/-- Model of Rust `char::is_alphanumeric`, which is
`is_alphabetic || is_numeric`. -/
def isAlphanumericChar (c : Char) : Bool :=
  isAlphabeticChar c || isNumericChar c

/-! ## Project name validation (src/project/config.rs `validate_project_name`) -/

/-- The four distinct `anyhow!` errors of `validate_project_name`. -/
inductive NameError where
  /-- "Project name cannot be empty" -/
  | empty
  /-- "Project name is too long" -/
  | tooLong
  /-- "Project name cannot start with a number" -/
  | startsWithNumber
  /-- "Project name can only contain alphanumeric characters, '-' and '_'" -/
  | invalidChar
deriving DecidableEq, Repr

/-- Rust `name.starts_with(|c: char| c.is_numeric())`: the string is
non-empty and its first character is numeric. -/
def startsWithNumeric (s : String) : Bool :=
  match s.toList with
  | [] => false
  | c :: _ => isNumericChar c

/-- A character admissible in a project name:
`c.is_alphanumeric() || c == '-' || c == '_'`. -/
def isValidNameChar (c : Char) : Bool :=
  isAlphanumericChar c || c == '-' || c == '_'

/-- `validate_project_name` (src/project/config.rs, lines 107-126).
Note `name.len()` in Rust is the UTF-8 byte length, hence
`String.utf8ByteSize`. -/
def validate_project_name (name : String) : Except NameError Unit :=
  if name.isEmpty then .error .empty
  else if 100 < name.utf8ByteSize then .error .tooLong
  else if startsWithNumeric name then .error .startsWithNumber
  else if !(name.toList.all isValidNameChar) then .error .invalidChar
  else .ok ()

/-! ## Filesystem and process model -/

/-- A filesystem path, as a list of segments.  `Path::join` of one segment is
list append of a singleton. -/
abbrev FsPath := List String

/-- The filesystem, modelled as the set of directories and files that exist.
A file is recorded as its path together with the name of the template that
was rendered into it.  `readonlyDirs` records directories whose metadata
reports read-only permissions. -/
structure FileSystem where
  dirs : List FsPath
  files : List (FsPath × String)
  readonlyDirs : List FsPath
deriving DecidableEq, Repr

/-- Rust `Path::exists`: true when the path names an existing directory or
file. -/
def fsExists (fs : FileSystem) (p : FsPath) : Bool :=
  fs.dirs.contains p || (fs.files.map Prod.fst).contains p

/-- Outcome of spawning an external process with
`std::process::Command::output`: either the process could not be started
(`output()` returns `Err`), or it ran to completion with some exit code
(`output()` returns `Ok` regardless of the code). -/
inductive SpawnResult where
  | spawnError
  | exited (code : Int)
deriving DecidableEq, Repr

/-! ## Project configuration (src/project/config.rs `ProjectConfig`) -/

/-- Complete configuration for a C++ project
(src/project/config.rs `ProjectConfig`). -/
structure ProjectConfig where
  name : String
  description : String
  project_type : ProjectType
  build_system : BuildSystem
  cpp_standard : CppStandard
  test_framework : TestFramework
  package_manager : PackageManager
  license : License
  use_git : Bool
  path : FsPath
  author : String
  version : String
  quality_config : QualityConfig
  code_formatter : CodeFormatter
deriving DecidableEq, Repr

/-- The CLI argument record (src/cli.rs `Cli`).  Fields not consumed by
`create_config_from_cli` (config file paths, CI, Docker, IDE, modules) are
omitted.  `code_formatter` is consumed by `create_config_from_cli`
(src/project/config.rs line 240); its `clap` declaration is not part of the
source snapshot, so it is carried here as a plain list of strings. -/
structure Cli where
  name : Option String
  description : Option String
  project_type : Option String
  build_system : String
  cpp_standard : String
  path : FsPath
  git : Bool
  non_interactive : Bool
  test_framework : String
  package_manager : String
  license : String
  author : Option String
  quality_tools : List String
  code_formatter : List String
deriving DecidableEq, Repr

/-- The distinct error cases of `validate_project_path`
(src/project/config.rs, lines 128-159).  The "Cannot access directory" case
(an `fs::metadata` failure on an existing path) has no counterpart in the
filesystem model and is unrepresentable here. -/
inductive PathError where
  /-- "Directory doesn't exist: …" -/
  | doesNotExist
  /-- "Path is not a directory: …" -/
  | notADirectory
  /-- "Directory is read-only: …" -/
  | readOnly
deriving DecidableEq, Repr

/-- `validate_project_path` (src/project/config.rs, lines 128-159). -/
def validate_project_path (fs : FileSystem) (path : FsPath) : Except PathError Unit :=
  if !(fsExists fs path) then .error .doesNotExist
  else if !(fs.dirs.contains path) then .error .notADirectory
  else if fs.readonlyDirs.contains path then .error .readOnly
  else .ok ()

/-- The error cases of `create_config_from_cli`
(src/project/config.rs, lines 161-272).  `panicked` models the
`unreachable!()` arms of the `license` and `test_framework` matches, which
abort the process rather than return an error. -/
inductive ConfigError where
  /-- "Project name is required in non-interactive mode" -/
  | missingName
  | invalidName (e : NameError)
  | invalidPath (e : PathError)
  /-- "Project type is required in non-interactive mode" -/
  | missingProjectType
  /-- "Project directory already exists: …" -/
  | alreadyExists (p : FsPath)
  /-- an `unreachable!()` arm was hit -/
  | panicked
deriving DecidableEq, Repr

/-- The `project_type` match of `create_config_from_cli`
(src/project/config.rs, lines 184-192). -/
def parse_project_type : Option String → Except ConfigError ProjectType
  | some "executable" => .ok .Executable
  | some "library" => .ok .Library
  | _ => .error .missingProjectType

/-- The `build_system` match of `create_config_from_cli`
(src/project/config.rs, lines 194-198): any unrecognized string falls back
to CMake. -/
def parse_build_system (s : String) : BuildSystem :=
  match s with
  | "cmake" => .CMake
  | "make" => .Make
  | _ => .CMake

/-- The `cpp_standard` match of `create_config_from_cli`
(src/project/config.rs, lines 200-207): any unrecognized string falls back
to C++17. -/
def parse_cpp_standard (s : String) : CppStandard :=
  match s with
  | "11" => .Cpp11
  | "14" => .Cpp14
  | "17" => .Cpp17
  | "20" => .Cpp20
  | "23" => .Cpp23
  | _ => .Cpp17

/-- The `package_manager` match of `create_config_from_cli`
(src/project/config.rs, lines 219-223): any unrecognized string falls back
to no package manager. -/
def parse_package_manager (s : String) : PackageManager :=
  match s with
  | "conan" => .Conan
  | "vcpkg" => .Vcpkg
  | _ => .None

/-- The `license` match of `create_config_from_cli`
(src/project/config.rs, lines 225-231); the catch-all arm is
`unreachable!()`. -/
def parse_license (s : String) : Except ConfigError License :=
  match s with
  | "MIT" => .ok .MIT
  | "Apache-2.0" => .ok .Apache2
  | "GPL-3.0" => .ok .GPL3
  | "BSD-3-Clause" => .ok .BSD3
  | _ => .error .panicked

/-- The `test_framework` match of `create_config_from_cli`
(src/project/config.rs, lines 247-254); the catch-all arm is
`unreachable!()`. -/
def parse_test_framework (s : String) : Except ConfigError TestFramework :=
  match s with
  | "doctest" => .ok .Doctest
  | "gtest" => .ok .GTest
  | "catch2" => .ok .Catch2
  | "boosttest" => .ok .BoostTest
  | "none" => .ok .None
  | _ => .error .panicked

/-- `create_config_from_cli` (src/project/config.rs, lines 161-272), in the
source's evaluation order: required name, name validation, path validation,
defaults for description and author (`envUser`/`envUsername` model the
`USER` and `USERNAME` environment variables), project type, build system,
C++ standard, existence check on the joined project path, package manager,
license, quality tools, code formatter, test framework.  It only reads the
filesystem; it never mutates it. -/
def create_config_from_cli (cli : Cli) (envUser envUsername : Option String)
    (fs : FileSystem) : Except ConfigError ProjectConfig :=
  match cli.name with
  | none => .error .missingName
  | some name =>
    match validate_project_name name with
    | .error e => .error (.invalidName e)
    | .ok _ =>
      match validate_project_path fs cli.path with
      | .error e => .error (.invalidPath e)
      | .ok _ =>
        let description := cli.description.getD "A C++ project generated with cppup"
        let default_author := (envUser.orElse fun _ => envUsername).getD "Unknown"
        let author := cli.author.getD default_author
        match parse_project_type cli.project_type with
        | .error e => .error e
        | .ok project_type =>
          let build_system := parse_build_system cli.build_system
          let cpp_standard := parse_cpp_standard cli.cpp_standard
          let path := cli.path ++ [name]
          if fsExists fs path then .error (.alreadyExists path)
          else
            let package_manager := parse_package_manager cli.package_manager
            match parse_license cli.license with
            | .error e => .error e
            | .ok license =>
              let quality_config := QualityConfig.new cli.quality_tools
              let code_formatter := CodeFormatter.new cli.code_formatter
              match parse_test_framework cli.test_framework with
              | .error e => .error e
              | .ok test_framework =>
                .ok { name := name, description := description,
                      project_type := project_type, build_system := build_system,
                      cpp_standard := cpp_standard, test_framework := test_framework,
                      package_manager := package_manager, license := license,
                      use_git := cli.git, path := path, author := author,
                      version := "0.1.0", quality_config := quality_config,
                      code_formatter := code_formatter }

/-! ## Template data projection (src/project/builder.rs `create_template_data`) -/

/-- The flattened key/value record consumed by the template engine
(src/templates.rs `ProjectTemplateData`). -/
structure ProjectTemplateData where
  name : String
  cpp_standard : String
  is_library : Bool
  «namespace» : String
  build_system : String
  description : String
  author : String
  version : String
  year : String
  enable_tests : Bool
  test_framework : String
  package_manager : String
  quality_config : String
  code_formatter : String
deriving DecidableEq, Repr

/-- Rust `config.name.replace('-', "_")`: a character pattern replaced by a
one-character string is a per-character map. -/
def replaceDashes (s : String) : String :=
  String.mk (s.toList.map fun c => if c == '-' then '_' else c)

/-- `create_template_data` (src/project/builder.rs, lines 15-32).  The
source computes the `year` field by reading the local clock
(`Local::now().year()`); the clock reading is threaded in as the explicit
input `nowYear`. -/
def create_template_data (config : ProjectConfig) (nowYear : Int) : ProjectTemplateData where
  name := config.name
  cpp_standard := config.cpp_standard.display
  is_library := config.project_type == .Library
  «namespace» := replaceDashes config.name
  build_system := config.build_system.display
  description := config.description
  author := config.author
  version := config.version
  year := toString nowYear
  enable_tests := config.test_framework != .None
  test_framework := config.test_framework.display
  package_manager := config.package_manager.display
  quality_config := config.quality_config.display
  code_formatter := config.code_formatter.display

/-! ## Template registry (src/templates.rs `create_template_registry`) -/

/-- The names registered in the static template registry
(src/templates.rs, lines 96-178). -/
def registeredTemplates : List String :=
  ["main.cpp", "CMakeLists.txt", "options.cmake", "compilation-flags.cmake",
   "source.cmake", "Makefile", "header.hpp", "library.cpp", "example.cpp",
   "example.cmake", "gitignore", "README.md", "conanfile.txt", "vcpkg.json",
   "MIT", "GPL-3.0", "BSD-3-Clause", "Apache-2.0", "clang-format",
   "cmake-format", "clang-tidy", "cppcheck-suppressions.xml", "tests.cmake",
   "boost_test_main.cpp", "catch2_main.cpp", "gtest_main.cpp",
   "doctest_main.cpp"]

/-! ## Builder (src/project/builder.rs `ProjectBuilder`)

Each builder step takes the filesystem and returns either the updated
filesystem or an error together with the filesystem as mutated so far
(the source aborts on first failure and leaves partial state on disk). -/

/-- Builder errors. -/
inductive BuildError where
  /-- "Failed to render template …" (template name not in the registry) -/
  | templateNotFound (template : String)
  /-- "Failed to initialize git repository" (the `git` process could not be
  spawned) -/
  | gitSpawnFailed
deriving DecidableEq, Repr

/-- Result of a builder step: the new filesystem, or the first error together
with the partially mutated filesystem. -/
inductive StepOut where
  | ok (fs : FileSystem)
  | fail (e : BuildError) (fs : FileSystem)
deriving DecidableEq, Repr

/-- Sequencing of fallible builder steps: first failure aborts. -/
def StepOut.andThen : StepOut → (FileSystem → StepOut) → StepOut
  | .ok fs, k => k fs
  | .fail e fs, _ => .fail e fs

/-- Rust `fs::create_dir_all`: after the call the directory exists; in the
model this never fails. -/
def createDirAll (p : FsPath) (fs : FileSystem) : FileSystem :=
  { fs with dirs := p :: fs.dirs }

/-- `TemplateRenderer::render` (src/templates.rs, lines 35-50): look the
template up in the registry, render it and write the result to the output
path.  In the model a file records the name of the template rendered into
it; an unknown template name is the failure mode (I/O write failures are not
modelled). -/
def renderTemplate (template : String) (out : FsPath) (fs : FileSystem) : StepOut :=
  if registeredTemplates.contains template then
    .ok { fs with files := (out, template) :: fs.files }
  else
    .fail (.templateNotFound template) fs

/-- The standard subdirectory names chosen by `create_directory_structure`
(src/project/builder.rs, lines 62-75): `src`, `cmake`, `include`, then
`examples` for libraries or `assets` for executables, then `tests` when a
test framework is selected. -/
def standardDirs (config : ProjectConfig) : List String :=
  ["src", "cmake", "include",
   match config.project_type with
   | .Library => "examples"
   | .Executable => "assets"]
  ++ (if config.test_framework != .None then ["tests"] else [])

/-- `ProjectBuilder::create_directory_structure`
(src/project/builder.rs, lines 53-83): create the project root, then each
standard subdirectory under it. -/
def create_directory_structure (config : ProjectConfig) (fs : FileSystem) : StepOut :=
  .ok ((standardDirs config).foldl
        (fun acc d => createDirAll (config.path ++ [d]) acc)
        (createDirAll config.path fs))

/-- `ProjectBuilder::generate_cmake_files` (src/project/builder.rs,
lines 137-171). -/
def generate_cmake_files (config : ProjectConfig) (fs : FileSystem) : StepOut :=
  (renderTemplate "CMakeLists.txt" (config.path ++ ["CMakeLists.txt"]) fs).andThen fun fs =>
  (renderTemplate "options.cmake" (config.path ++ ["cmake", "options.cmake"]) fs).andThen fun fs =>
  (renderTemplate "compilation-flags.cmake"
    (config.path ++ ["cmake", "compilation-flags.cmake"]) fs).andThen fun fs =>
  (renderTemplate "source.cmake" (config.path ++ ["src", "CMakeLists.txt"]) fs).andThen fun fs =>
  if config.project_type == .Library then
    renderTemplate "example.cmake" (config.path ++ ["examples", "CMakeLists.txt"]) fs
  else
    .ok fs

/-- `ProjectBuilder::generate_makefile` (src/project/builder.rs,
lines 173-181). -/
def generate_makefile (config : ProjectConfig) (fs : FileSystem) : StepOut :=
  renderTemplate "Makefile" (config.path ++ ["Makefile"]) fs

/-- `ProjectBuilder::generate_source_files` (src/project/builder.rs,
lines 183-215). -/
def generate_source_files (config : ProjectConfig) (fs : FileSystem) : StepOut :=
  match config.project_type with
  | .Executable =>
    renderTemplate "main.cpp" (config.path ++ ["src", "main.cpp"]) fs
  | .Library =>
    (renderTemplate "header.hpp"
      (config.path ++ ["include", config.name ++ ".hpp"]) fs).andThen fun fs =>
    (renderTemplate "library.cpp" (config.path ++ ["src", "lib.cpp"]) fs).andThen fun fs =>
    renderTemplate "example.cpp" (config.path ++ ["examples", "example.cpp"]) fs

/-- The 4-way test stub selection of `generate_test_files`
(src/project/builder.rs, lines 227-257): the template rendered to
`tests/main_test.cpp` for each test framework. -/
def testStubTemplate : TestFramework → Option String
  | .Doctest => some "doctest_main.cpp"
  | .GTest => some "gtest_main.cpp"
  | .BoostTest => some "boost_test_main.cpp"
  | .Catch2 => some "catch2_main.cpp"
  | .None => none

/-- `ProjectBuilder::generate_test_files` (src/project/builder.rs,
lines 217-260): when a test framework is selected, render the test build
file `tests/CMakeLists.txt` (only under the CMake build system), then the
framework-specific stub to `tests/main_test.cpp`. -/
def generate_test_files (config : ProjectConfig) (fs : FileSystem) : StepOut :=
  if config.test_framework != .None then
    (if config.build_system == .CMake then
      renderTemplate "tests.cmake" (config.path ++ ["tests", "CMakeLists.txt"]) fs
    else
      .ok fs).andThen fun fs =>
    match testStubTemplate config.test_framework with
    | some stub => renderTemplate stub (config.path ++ ["tests", "main_test.cpp"]) fs
    | none => .ok fs
  else
    .ok fs

/-- `ProjectBuilder::generate_readme` (src/project/builder.rs,
lines 262-270). -/
def generate_readme (config : ProjectConfig) (fs : FileSystem) : StepOut :=
  renderTemplate "README.md" (config.path ++ ["README.md"]) fs

/-- `ProjectBuilder::generate_license` (src/project/builder.rs,
lines 272-280): the template name is the display form of the license enum. -/
def generate_license (config : ProjectConfig) (fs : FileSystem) : StepOut :=
  renderTemplate config.license.display (config.path ++ ["LICENSE"]) fs

/-- `ProjectBuilder::generate_quality_files` (src/project/builder.rs,
lines 282-298). -/
def generate_quality_files (config : ProjectConfig) (fs : FileSystem) : StepOut :=
  (if config.quality_config.enable_clang_tidy then
    renderTemplate "clang-tidy" (config.path ++ [".clang-tidy"]) fs
  else
    .ok fs).andThen fun fs =>
  if config.quality_config.enable_cppcheck then
    renderTemplate "cppcheck-suppressions.xml"
      (config.path ++ ["cppcheck-suppressions.xml"]) fs
  else
    .ok fs

/-- `ProjectBuilder::generate_code_formatter_files`
(src/project/builder.rs, lines 300-316). -/
def generate_code_formatter_files (config : ProjectConfig) (fs : FileSystem) : StepOut :=
  (if config.code_formatter.enable_clang_format then
    renderTemplate "clang-format" (config.path ++ [".clang-format"]) fs
  else
    .ok fs).andThen fun fs =>
  if config.code_formatter.enable_cmake_format then
    renderTemplate "cmake-format" (config.path ++ ["cmake-format.yaml"]) fs
  else
    .ok fs

/-- `ProjectBuilder::render_templates` (src/project/builder.rs,
lines 85-97). -/
def render_templates (config : ProjectConfig) (fs : FileSystem) : StepOut :=
  (match config.build_system with
   | .CMake => generate_cmake_files config fs
   | .Make => generate_makefile config fs).andThen fun fs =>
  (generate_source_files config fs).andThen fun fs =>
  (generate_test_files config fs).andThen fun fs =>
  (generate_readme config fs).andThen fun fs =>
  (generate_quality_files config fs).andThen fun fs =>
  (generate_code_formatter_files config fs).andThen fun fs =>
  generate_license config fs

/-- `ProjectBuilder::setup_package_manager` (src/project/builder.rs,
lines 116-135). -/
def setup_package_manager (config : ProjectConfig) (fs : FileSystem) : StepOut :=
  match config.package_manager with
  | .Conan => renderTemplate "conanfile.txt" (config.path ++ ["conanfile.txt"]) fs
  | .Vcpkg => renderTemplate "vcpkg.json" (config.path ++ ["vcpkg.json"]) fs
  | .None => .ok fs

/-- `ProjectBuilder::initialize_git` (src/project/builder.rs, lines 99-114).
When `use_git` is set, `git init` is run via `Command::output()`: only a
spawn failure propagates as an error (`.context(..)?`), while the exit
status of a process that did run is never inspected.  After the spawn, the
`gitignore` template is rendered to `.gitignore`. -/
def initialize_git (config : ProjectConfig) (git : SpawnResult) (fs : FileSystem) : StepOut :=
  if config.use_git then
    match git with
    | .spawnError => .fail .gitSpawnFailed fs
    | .exited _ =>
      renderTemplate "gitignore" (config.path ++ [".gitignore"]) fs
  else
    .ok fs

/-- `ProjectBuilder::build` (src/project/builder.rs, lines 44-51):
directory structure, templates, package manager manifest, git
initialization.  (`print_success_message` only writes to stdout.) -/
def build (config : ProjectConfig) (git : SpawnResult) (fs : FileSystem) : StepOut :=
  (create_directory_structure config fs).andThen fun fs =>
  (render_templates config fs).andThen fun fs =>
  (setup_package_manager config fs).andThen fun fs =>
  initialize_git config git fs

/-! ## The non-interactive run

`main` (with the crate layout of src/lib.rs: configuration construction,
then prerequisite checks, then the builder) constructs the configuration
from the CLI before anything touches the filesystem for writing.  The
prerequisite check (`ProjectValidator::check_prerequisites`) only queries
tool presence and the compiler version and writes nothing; it is elided
here, which can only make the run mutate in strictly more cases than the
source. -/

/-- Errors of a whole non-interactive run. -/
inductive RunError where
  | config (e : ConfigError)
  | build (e : BuildError)
deriving DecidableEq, Repr

/-- The non-interactive run: construct the configuration from the CLI
arguments, then hand it to the builder.  The result is paired with the
final state of the filesystem (unchanged when construction fails). -/
def runNonInteractive (cli : Cli) (envUser envUsername : Option String)
    (git : SpawnResult) (fs : FileSystem) : Except RunError FileSystem × FileSystem :=
  match create_config_from_cli cli envUser envUsername fs with
  | .error e => (.error (.config e), fs)
  | .ok config =>
    match build config git fs with
    | .ok fs' => (.ok fs', fs')
    | .fail e fs' => (.error (.build e), fs')

/-! ## CLI value parsers (src/cli.rs `Cli`)

`clap` restricts each enumerated flag to the closed list given by its
`value_parser` before `create_config_from_cli` ever runs; a string outside
the list makes argument parsing fail.  The composition of the two stages is
the full string-to-enum pipeline of the non-interactive mode. -/

/-- `value_parser` list of `--project-type` (src/cli.rs line 16). -/
def clapProjectTypeValues : List String := ["executable", "library"]

/-- `value_parser` list of `--build-system` (src/cli.rs line 20). -/
def clapBuildSystemValues : List String := ["cmake", "make", "ninja", "bazel", "meson"]

/-- `value_parser` list of `--cpp-standard` (src/cli.rs line 24). -/
def clapCppStandardValues : List String := ["11", "14", "17", "20", "23", "26"]

/-- `value_parser` list of `--test-framework` (src/cli.rs line 43). -/
def clapTestFrameworkValues : List String :=
  ["doctest", "gtest", "catch2", "boosttest", "none"]

/-- `value_parser` list of `--package-manager` (src/cli.rs line 46). -/
def clapPackageManagerValues : List String :=
  ["conan", "vcpkg", "cpm", "hunter", "none"]

/-- `value_parser` list of `--license` (src/cli.rs line 49). -/
def clapLicenseValues : List String :=
  ["MIT", "Apache-2.0", "GPL-3.0", "BSD-3-Clause"]

/-- Errors of the string-to-enum pipeline: rejection at the `clap` parse
boundary, or a `create_config_from_cli` error. -/
inductive FieldError where
  /-- `clap` refused the value ("invalid value for …") -/
  | clapReject
  | configError (e : ConfigError)
deriving DecidableEq, Repr

/-- The two-stage pipeline for `--project-type`. -/
def pipelineProjectType (s : String) : Except FieldError ProjectType :=
  if clapProjectTypeValues.contains s then
    match parse_project_type (some s) with
    | .ok t => .ok t
    | .error e => .error (.configError e)
  else .error .clapReject

/-- The two-stage pipeline for `--build-system`. -/
def pipelineBuildSystem (s : String) : Except FieldError BuildSystem :=
  if clapBuildSystemValues.contains s then .ok (parse_build_system s)
  else .error .clapReject

/-- The two-stage pipeline for `--cpp-standard`. -/
def pipelineCppStandard (s : String) : Except FieldError CppStandard :=
  if clapCppStandardValues.contains s then .ok (parse_cpp_standard s)
  else .error .clapReject

/-- The two-stage pipeline for `--test-framework`. -/
def pipelineTestFramework (s : String) : Except FieldError TestFramework :=
  if clapTestFrameworkValues.contains s then
    match parse_test_framework s with
    | .ok t => .ok t
    | .error e => .error (.configError e)
  else .error .clapReject

/-- The two-stage pipeline for `--package-manager`. -/
def pipelinePackageManager (s : String) : Except FieldError PackageManager :=
  if clapPackageManagerValues.contains s then .ok (parse_package_manager s)
  else .error .clapReject

/-- The two-stage pipeline for `--license`. -/
def pipelineLicense (s : String) : Except FieldError License :=
  if clapLicenseValues.contains s then
    match parse_license s with
    | .ok t => .ok t
    | .error e => .error (.configError e)
  else .error .clapReject

/-! ## Compiler version check (src/project/validator.rs)

`check_compiler_version` compares the version extracted from the first line
of `g++ --version` output with a threshold keyed by the chosen standard.
The extraction models the one regular expression of the source,
`g\+\+ .* (\d+\.\d+)`, under the regex crate's leftmost-first match
semantics: the match starts at the first occurrence of `"g++ "`, the
greedy `.*` pushes the capture to the last position after it where a space
is followed by `digits '.' digits`, and each `\d+` is a maximal digit run.

The source then parses the captured decimal string into an `f32`
(`str::parse::<f32>`, correctly rounded to the nearest `binary32` value,
ties to even — e.g. `"4.9999999"` parses to exactly `5.0f32`) and compares
it with an `f32` threshold literal.  This stage is modelled exactly:
`round32` computes the correctly rounded `binary32` value of a nonnegative
rational as an integer multiple of `2^-149` (with overflow to infinity),
and the comparison `F32.lt` is the `f32` comparison of the two rounded
values. -/

/-- The suffix following the first occurrence of `"g++ "`, if any. -/
def afterGxx : List Char → Option (List Char)
  | [] => none
  | c :: rest =>
    if List.isPrefixOf "g++ ".toList (c :: rest) then some (List.drop 3 rest)
    else afterGxx rest

/-- An exact decimal number `whole.frac` with `fracDigits` fractional
digits, as captured by the version regex and as written in the threshold
table.  Its numerator over `10 ^ fracDigits` is
`whole * 10 ^ fracDigits + frac`. -/
structure Decimal where
  whole : ℕ
  frac : ℕ
  fracDigits : ℕ
deriving DecidableEq, Repr

/-- The rational value of a decimal. -/
def Decimal.toRat (d : Decimal) : ℚ :=
  (d.whole : ℚ) + (d.frac : ℚ) / (10 : ℚ) ^ d.fracDigits

/-- Match `\d+\.\d+` at the head of the list (each `\d+` a maximal run of
ASCII digits) and return the captured decimal. -/
def decCapture (l : List Char) : Option Decimal :=
  let d1 := l.takeWhile Char.isDigit
  let r1 := l.dropWhile Char.isDigit
  if d1.isEmpty then none
  else match r1 with
    | '.' :: r2 =>
      let d2 := r2.takeWhile Char.isDigit
      if d2.isEmpty then none
      else
        let n1 : ℕ := d1.foldl (fun acc c => 10 * acc + (c.toNat - '0'.toNat)) 0
        let n2 : ℕ := d2.foldl (fun acc c => 10 * acc + (c.toNat - '0'.toNat)) 0
        some ⟨n1, n2, d2.length⟩
    | _ => none

/-- The last position in the list where a space is followed by a
`\d+\.\d+` match, and the value captured there (the greedy `.*` of the
regex selects the rightmost such position). -/
def lastVersionMatch : List Char → Option Decimal
  | [] => none
  | ' ' :: t => (lastVersionMatch t).orElse fun _ => decCapture t
  | _ :: t => lastVersionMatch t

/-- `ProjectValidator::extract_gcc_version` (src/project/validator.rs,
lines 104-112). -/
def extract_gcc_version (s : String) : Option Decimal :=
  match afterGxx s.toList with
  | none => none
  | some rest => lastVersionMatch rest

/-- The static threshold table of `check_compiler_version`
(src/project/validator.rs, lines 68-74): 4.8, 5.0, 7.0, 10.0, 12.0. -/
def required_gcc_version : CppStandard → Decimal
  | .Cpp11 => ⟨4, 8, 1⟩
  | .Cpp14 => ⟨5, 0, 1⟩
  | .Cpp17 => ⟨7, 0, 1⟩
  | .Cpp20 => ⟨10, 0, 1⟩
  | .Cpp23 => ⟨12, 0, 1⟩

/-- Round `a / b` (with `b > 0`) to the nearest integer, ties to even. -/
def rndHalfEven (a b : ℕ) : ℕ :=
  let d := a / b
  let r := a % b
  if 2 * r < b then d
  else if b < 2 * r then d + 1
  else if d % 2 = 0 then d else d + 1

/-- `⌊log₂ n⌋` (0 for `n = 0`), by fuelled halving: correct whenever
`n < 2 ^ fuel`. -/
def log2Fuel : ℕ → ℕ → ℕ
  | 0, _ => 0
  | fuel + 1, n => if 2 ≤ n then log2Fuel fuel (n / 2) + 1 else 0

/-- `⌊log₂ n⌋` for `1 ≤ n < 2 ^ 300` (kernel-computable; `round32` only
applies it to numbers below `2 ^ 254`, thanks to its overflow guard). -/
def natLog2 (n : ℕ) : ℕ :=
  log2Fuel 300 n

/-- A nonnegative IEEE 754 `binary32` value: a finite value, stored exactly
as `scaled * 2^-149` (`2^-149` is the smallest positive `f32`, and every
finite nonnegative `f32` is an integer multiple of it), or `+∞`. -/
inductive F32 where
  | finite (scaled : ℕ)
  | inf
deriving DecidableEq, Repr

/-- The `f32` comparison `a < b` for the values arising here (digits-only
parses and literals are never NaN; thresholds are finite). -/
def F32.lt : F32 → F32 → Bool
  | .finite a, .finite b => a < b
  | .finite _, .inf => true
  | .inf, _ => false

/-- The correctly rounded (round to nearest, ties to even) `binary32` value
of the nonnegative rational `N / D` (`D > 0`), as `str::parse::<f32>`
produces it for the decimal strings captured by the version regex:
* values at or beyond `2^128 - 2^103` (the midpoint above the largest
  finite `f32`) round to `+∞`;
* values below `2^-126` lie on the subnormal grid of spacing `2^-149`;
* otherwise the exponent `e` with `2^e ≤ N/D < 2^(e+1)` is located via
  `E = e + 126 = ⌊log₂ (N·2^126 / D)⌋`, and the significand is `N/D`
  scaled to `[2^23, 2^24)` and rounded half-to-even.  The result is stored
  as a multiple of `2^-149`: `m · 2^(e-23) = (m · 2^E) · 2^-149`. -/
def round32 (N D : ℕ) : F32 :=
  if N = 0 then .finite 0
  else if (2 ^ 25 - 1) * 2 ^ 103 * D ≤ N then .inf
  else if N * 2 ^ 126 < D then .finite (rndHalfEven (N * 2 ^ 149) D)
  else
    let E := natLog2 (N * 2 ^ 126 / D)
    let m :=
      if E ≤ 149 then rndHalfEven (N * 2 ^ (149 - E)) D
      else rndHalfEven N (D * 2 ^ (E - 149))
    .finite (m * 2 ^ E)

/-- The `f32` value of a parsed decimal:
`d.parse::<f32>() = round32 (whole·10^L + frac) (10^L)`. -/
def Decimal.toF32 (d : Decimal) : F32 :=
  round32 (d.whole * 10 ^ d.fracDigits + d.frac) (10 ^ d.fracDigits)

/-- The error of `check_compiler_version`:
"G++ version {found} is too old for C++{std}. Version >= {required}
required." -/
inductive CompilerError where
  | compilerTooOld (found : Decimal) (required : Decimal)
deriving DecidableEq, Repr

/-- The comparison stage of `ProjectValidator::check_compiler_version`
(src/project/validator.rs, lines 63-88), given the version string obtained
from `g++ --version`: extract a version; fail when one was extracted and
its parsed `f32` value is strictly below the `f32` threshold for the
chosen standard; succeed silently otherwise (in particular whenever
nothing could be extracted). -/
def check_compiler_version (std : CppStandard) (versionString : String) :
    Except CompilerError Unit :=
  match extract_gcc_version versionString with
  | some version =>
    if F32.lt version.toF32 (required_gcc_version std).toF32 then
      .error (.compilerTooOld version (required_gcc_version std))
    else .ok ()
  | none => .ok ()

/-! ## The `contains` template helper (src/templates.rs `contains_helper`) -/

/-- Rust `str::split(',')`: split at every comma; an empty input yields one
empty item. -/
def splitOnComma (l : List Char) : List (List Char) :=
  match l with
  | [] => [[]]
  | c :: rest =>
    match splitOnComma rest with
    | [] => [[]]
    | item :: items =>
      if c == ',' then [] :: item :: items
      else (c :: item) :: items

/-- Rust `str::trim`: remove whitespace from both ends.  (Rust trims the
Unicode `White_Space` class; this model trims `Char.isWhitespace`, which
agrees on every character appearing in this development.) -/
def trimChars (l : List Char) : List Char :=
  (l.dropWhile Char.isWhitespace).reverse.dropWhile Char.isWhitespace |>.reverse

/-- The membership test of `contains_helper` (src/templates.rs, line 77):
`list.split(',').any(|item| item.trim() == value)`. -/
def containsToken (list value : String) : Bool :=
  (splitOnComma list.toList).any fun item => trimChars item == value.toList

/-- `contains_helper` (src/templates.rs, lines 66-87): the helper writes the
string `"true"` (truthy in Handlebars) when the token is found, and the
empty string (falsy in Handlebars) otherwise. -/
def contains_helper (list value : String) : String :=
  if containsToken list value then "true" else ""

/-! # Claims -/

/-! ## Claim C1: project name validation -/

/-- Validity of a project name exactly as claim C1 words it: non-empty, at
most 100 *characters*, not starting with a *digit*, and consisting only of
alphanumerics, `-` and `_`.  ("digit" is read as the decimal digits `0-9`;
"alphanumeric" as the classifier the code itself uses.) -/
def claimValidName (name : String) : Bool :=
  !name.isEmpty && decide (name.toList.length ≤ 100) &&
    !(match name.toList with
      | [] => false
      | c :: _ => c.isDigit) &&
    name.toList.all isValidNameChar

/-- A 51-character name of two-byte characters: 51 characters but 102 UTF-8
bytes. -/
def accentName : String := String.mk (List.replicate 51 'é')

/-- A name whose first character is numeric (Unicode `No`) but not a digit. -/
def halfName : String := "½x"

/-- C1, counterexample.  Two names that are valid by the claim's letter —
non-empty, at most 100 characters, not digit-leading, all characters
alphanumeric — but that `validate_project_name` rejects: the length limit
of the code is 100 UTF-8 *bytes*, not characters (`accentName` has 51
characters but 102 bytes), and the leading-character test of the code
rejects any Unicode-*numeric* character, not only digits (`halfName` starts
with `'½'`). -/
theorem validate_name_claim_counterexample :
    (claimValidName accentName = true ∧
      validate_project_name accentName = .error .tooLong)
    ∧ (claimValidName halfName = true ∧
      validate_project_name halfName = .error .startsWithNumber) := by
  decide

/-- A 100-character (and 100-byte) ASCII name. -/
def hundredName : String := String.mk (List.replicate 100 'a')

/-- A 101-character (and 101-byte) ASCII name. -/
def hundredOneName : String := String.mk (List.replicate 101 'a')

/-- C1 (amended): `validate_project_name` succeeds exactly when the name is
non-empty, at most 100 UTF-8 bytes long, does not start with a
Unicode-numeric character, and consists only of alphanumerics, `-` and `_`;
on every other string it fails with the error of the first violated rule in
the order empty / too long / leading numeric / illegal character.  A name
of exactly 100 ASCII characters is accepted and one of 101 is rejected. -/
theorem validate_name_spec (name : String) :
    (validate_project_name name = .ok () ↔
      (name.isEmpty = false ∧ name.utf8ByteSize ≤ 100 ∧
        startsWithNumeric name = false ∧ name.toList.all isValidNameChar = true))
    ∧ (name.isEmpty = true → validate_project_name name = .error .empty)
    ∧ (name.isEmpty = false → 100 < name.utf8ByteSize →
        validate_project_name name = .error .tooLong)
    ∧ (name.isEmpty = false → name.utf8ByteSize ≤ 100 →
        startsWithNumeric name = true →
        validate_project_name name = .error .startsWithNumber)
    ∧ (name.isEmpty = false → name.utf8ByteSize ≤ 100 →
        startsWithNumeric name = false → name.toList.all isValidNameChar = false →
        validate_project_name name = .error .invalidChar)
    ∧ validate_project_name hundredName = .ok ()
    ∧ validate_project_name hundredOneName = .error .tooLong := by
  refine ⟨?_, ?_, ?_, ?_, ?_, by decide, by decide⟩ <;>
    · unfold validate_project_name
      by_cases h1 : name.isEmpty <;> by_cases h2 : 100 < name.utf8ByteSize <;>
        by_cases h3 : startsWithNumeric name <;>
        by_cases h4 : name.toList.all isValidNameChar <;>
        simp [h1, h2, h3, h4, Nat.not_lt] <;> omega

/-- Closed instance of `validate_name_spec`: the name `"cpp-demo"` satisfies
all four rules and is accepted. -/
theorem validate_name_spec_witness : validate_project_name "cpp-demo" = .ok () :=
  ((validate_name_spec "cpp-demo").1).mpr (by decide)

/-! ## Claim C2: invalid name fails before any filesystem mutation -/

/-- C2: in non-interactive mode, a CLI whose project name fails validation
makes configuration construction fail — with that name's validation error —
and the run ends with the filesystem exactly as it started: no directory or
file has been created.  (Name validation is the second step of
`create_config_from_cli`, before the project path is ever consulted.) -/
theorem invalid_name_no_mutation (cli : Cli) (envUser envUsername : Option String)
    (git : SpawnResult) (fs : FileSystem) (n : String) (e : NameError)
    (_hni : cli.non_interactive = true) (hn : cli.name = some n)
    (hv : validate_project_name n = .error e) :
    runNonInteractive cli envUser envUsername git fs =
      (.error (.config (.invalidName e)), fs) := by
  simp only [runNonInteractive, create_config_from_cli, hn, hv]

/-- The CLI arguments of scenario E: `--name 123bad --project-type executable
--non-interactive`, all other flags at their defaults. -/
def badNameCli : Cli where
  name := some "123bad"
  description := none
  project_type := some "executable"
  build_system := "cmake"
  cpp_standard := "17"
  path := ["home"]
  git := true
  non_interactive := true
  test_framework := "none"
  package_manager := "none"
  license := "MIT"
  author := none
  quality_tools := []
  code_formatter := []

/-- An existing, writable target directory with nothing in it. -/
def baseFs : FileSystem where
  dirs := [["home"]]
  files := []
  readonlyDirs := []

/-- Closed instance of `invalid_name_no_mutation` at the name `"123bad"`:
the run errors and the filesystem is unchanged. -/
theorem invalid_name_no_mutation_witness :
    runNonInteractive badNameCli none none (.exited 0) baseFs =
      (.error (.config (.invalidName .startsWithNumber)), baseFs) :=
  invalid_name_no_mutation badNameCli none none (.exited 0) baseFs
    "123bad" .startsWithNumber rfl rfl (by decide)

/-! ## Claim C3: closed enum value sets -/

/-- The closed set of variant strings of `CppStandard` (the display forms of
its five variants). -/
def cppStandardClosedSet : List String :=
  [CppStandard.Cpp11, .Cpp14, .Cpp17, .Cpp20, .Cpp23].map CppStandard.display

/-- C3, counterexample.  The CLI accepts `--cpp-standard 26`, a value
outside the closed set `{11, 14, 17, 20, 23}` of `CppStandard` variants,
and `create_config_from_cli` silently coerces it to C++17 instead of
rejecting it — a second undocumented fallback besides the build-system one
(and `--package-manager cpm` is likewise coerced to no package manager). -/
theorem enum_coercion_counterexample :
    ("26" ∉ cppStandardClosedSet ∧ pipelineCppStandard "26" = .ok .Cpp17)
    ∧ pipelinePackageManager "cpm" = .ok .None := by
  constructor
  · constructor
    · decide
    · rfl
  · rfl

/-- C3 (amended): for each enum-valued CLI field, the composition of the
`clap` value check and the `create_config_from_cli` match rejects every
string outside the `clap` list and maps every accepted string to a variant;
the accepted string is the variant's own name except for three documented
fallbacks: an unrecognized build-system string (`ninja`, `bazel`, `meson`)
falls back to CMake, an unrecognized C++-standard string (`26`) falls back
to C++17, and an unrecognized package-manager string (`cpm`, `hunter`)
falls back to no package manager.  Project type, test framework and
license admit no coercion at all. -/
theorem cli_enum_closed_sets (s : String) :
    ((∀ t, pipelineProjectType s = .ok t ↔
        ((s = "executable" ∧ t = .Executable) ∨ (s = "library" ∧ t = .Library)))
      ∧ (pipelineProjectType s = .error .clapReject ↔ s ∉ clapProjectTypeValues))
    ∧ ((∀ b, pipelineBuildSystem s = .ok b ↔
        ((s = "make" ∧ b = .Make) ∨
          (s ∈ (["cmake", "ninja", "bazel", "meson"] : List String) ∧ b = .CMake)))
      ∧ (pipelineBuildSystem s = .error .clapReject ↔ s ∉ clapBuildSystemValues))
    ∧ ((∀ t, pipelineCppStandard s = .ok t ↔
        ((s = "11" ∧ t = .Cpp11) ∨ (s = "14" ∧ t = .Cpp14) ∨
          (s ∈ (["17", "26"] : List String) ∧ t = .Cpp17) ∨
          (s = "20" ∧ t = .Cpp20) ∨ (s = "23" ∧ t = .Cpp23)))
      ∧ (pipelineCppStandard s = .error .clapReject ↔ s ∉ clapCppStandardValues))
    ∧ ((∀ t, pipelineTestFramework s = .ok t ↔
        ((s = "doctest" ∧ t = .Doctest) ∨ (s = "gtest" ∧ t = .GTest) ∨
          (s = "catch2" ∧ t = .Catch2) ∨ (s = "boosttest" ∧ t = .BoostTest) ∨
          (s = "none" ∧ t = .None)))
      ∧ (pipelineTestFramework s = .error .clapReject ↔ s ∉ clapTestFrameworkValues))
    ∧ ((∀ t, pipelinePackageManager s = .ok t ↔
        ((s = "conan" ∧ t = .Conan) ∨ (s = "vcpkg" ∧ t = .Vcpkg) ∨
          (s ∈ (["none", "cpm", "hunter"] : List String) ∧ t = .None)))
      ∧ (pipelinePackageManager s = .error .clapReject ↔ s ∉ clapPackageManagerValues))
    ∧ ((∀ t, pipelineLicense s = .ok t ↔
        ((s = "MIT" ∧ t = .MIT) ∨ (s = "Apache-2.0" ∧ t = .Apache2) ∨
          (s = "GPL-3.0" ∧ t = .GPL3) ∨ (s = "BSD-3-Clause" ∧ t = .BSD3)))
      ∧ (pipelineLicense s = .error .clapReject ↔ s ∉ clapLicenseValues)) := by
  refine ⟨?_, ?_, ?_, ?_, ?_, ?_⟩
  · by_cases h1 : s = "executable" <;> by_cases h2 : s = "library" <;>
      simp_all [pipelineProjectType, parse_project_type, clapProjectTypeValues, eq_comm]
  · by_cases h1 : s = "cmake" <;> by_cases h2 : s = "make" <;>
      by_cases h3 : s = "ninja" <;> by_cases h4 : s = "bazel" <;>
      by_cases h5 : s = "meson" <;>
      simp_all [pipelineBuildSystem, parse_build_system, clapBuildSystemValues, eq_comm]
  · by_cases h1 : s = "11" <;> by_cases h2 : s = "14" <;> by_cases h3 : s = "17" <;>
      by_cases h4 : s = "20" <;> by_cases h5 : s = "23" <;> by_cases h6 : s = "26" <;>
      simp_all [pipelineCppStandard, parse_cpp_standard, clapCppStandardValues, eq_comm]
  · by_cases h1 : s = "doctest" <;> by_cases h2 : s = "gtest" <;>
      by_cases h3 : s = "catch2" <;> by_cases h4 : s = "boosttest" <;>
      by_cases h5 : s = "none" <;>
      simp_all [pipelineTestFramework, parse_test_framework, clapTestFrameworkValues, eq_comm]
  · by_cases h1 : s = "conan" <;> by_cases h2 : s = "vcpkg" <;>
      by_cases h3 : s = "cpm" <;> by_cases h4 : s = "hunter" <;>
      by_cases h5 : s = "none" <;>
      simp_all [pipelinePackageManager, parse_package_manager, clapPackageManagerValues, eq_comm]
  · by_cases h1 : s = "MIT" <;> by_cases h2 : s = "Apache-2.0" <;>
      by_cases h3 : s = "GPL-3.0" <;> by_cases h4 : s = "BSD-3-Clause" <;>
      simp_all [pipelineLicense, parse_license, clapLicenseValues, eq_comm]

/-- Closed instance of `cli_enum_closed_sets`: `--build-system ninja` is
coerced to CMake, and a license string outside the closed set is rejected
at the `clap` boundary. -/
theorem cli_enum_closed_sets_witness :
    pipelineBuildSystem "ninja" = .ok .CMake ∧
      pipelineLicense "WTFPL" = .error .clapReject :=
  ⟨((cli_enum_closed_sets "ninja").2.1.1 .CMake).mpr (by decide),
    ((cli_enum_closed_sets "WTFPL").2.2.2.2.2.2).mpr (by decide)⟩

/-! ## Claim C4: the template-data projection -/

/-- The configuration of spec scenario A: `demo`, executable, CMake, C++17,
no tests, no package manager, MIT, no git. -/
def sampleConfig : ProjectConfig where
  name := "demo"
  description := "A C++ project generated with cppup"
  project_type := .Executable
  build_system := .CMake
  cpp_standard := .Cpp17
  test_framework := .None
  package_manager := .None
  license := .MIT
  use_git := false
  path := ["home", "demo"]
  author := "Unknown"
  version := "0.1.0"
  quality_config := ⟨false, false, false⟩
  code_formatter := ⟨false, false⟩

/-- C4, counterexample.  `create_template_data` is not a function of the
configuration alone: its `year` field is read from the local clock at call
time (`Local::now().year()`), so the same configuration projected in two
different years yields two different `TemplateData` records. -/
theorem template_data_not_config_function :
    create_template_data sampleConfig 2024 ≠ create_template_data sampleConfig 2025 := by
  decide

/-- C4 (amended): `create_template_data` is a pure, total function of the
configuration and the current year, with no failure mode; `is_library`
holds exactly when the project type is `Library`, `enable_tests` exactly
when the test framework is not `None`, and `namespace` is the project name
with every `-` replaced by `_`. -/
theorem template_data_projection (config : ProjectConfig) (nowYear : Int) :
    ((create_template_data config nowYear).is_library = true ↔
      config.project_type = .Library)
    ∧ ((create_template_data config nowYear).enable_tests = true ↔
      config.test_framework ≠ .None)
    ∧ (create_template_data config nowYear).«namespace».toList =
        config.name.toList.map (fun c => if c = '-' then '_' else c) := by
  refine ⟨?_, ?_, ?_⟩
  · cases h : config.project_type <;> simp [create_template_data, h]
  · cases h : config.test_framework <;> simp [create_template_data, h]
  · simp only [create_template_data, replaceDashes]
    exact List.map_congr_left fun c _ => by by_cases h : c = '-' <;> simp [h]

/-- Closed instance of `template_data_projection`: the namespace of the
scenario-A configuration. -/
theorem template_data_projection_witness :
    (create_template_data sampleConfig 2024).«namespace».toList =
      "demo".toList.map (fun c => if c = '-' then '_' else c) :=
  (template_data_projection sampleConfig 2024).2.2

/-! ## Claim C5: test file generation -/

/-- The scenario-A configuration with the Make build system and the GTest
test framework. -/
def makeGtestConfig : ProjectConfig :=
  { sampleConfig with build_system := .Make, test_framework := .GTest }

/-- C5, counterexample.  With `--build-system make --test-framework gtest`,
`generate_test_files` renders exactly one file — the GTest harness
`tests/main_test.cpp` — and no test build-file at all: the
`tests/CMakeLists.txt` render is guarded by `build_system == CMake`, so the
claim that both files are rendered for every configuration with a test
framework is false. -/
theorem test_build_file_counterexample :
    makeGtestConfig.test_framework ≠ .None ∧
      generate_test_files makeGtestConfig ⟨[], [], []⟩ =
        .ok ⟨[], [(["home", "demo", "tests", "main_test.cpp"], "gtest_main.cpp")], []⟩ := by
  decide

/-- C5 (amended): when a test framework is selected, `generate_test_files`
always renders the framework-specific test stub to `tests/main_test.cpp` —
a 4-way branch on the test-framework enum selects the stub — and renders
the test build-file `tests/CMakeLists.txt` exactly when the build system is
CMake; when the test framework is `None`, nothing is rendered. -/
theorem test_files_generation (config : ProjectConfig) (fs : FileSystem) :
    (config.test_framework = .None → generate_test_files config fs = .ok fs)
    ∧ (∀ stub, config.test_framework ≠ .None →
        testStubTemplate config.test_framework = some stub →
        ((config.build_system = .CMake →
          generate_test_files config fs = .ok { fs with files :=
            (config.path ++ ["tests", "main_test.cpp"], stub) ::
              (config.path ++ ["tests", "CMakeLists.txt"], "tests.cmake") :: fs.files })
        ∧ (config.build_system = .Make →
          generate_test_files config fs = .ok { fs with files :=
            (config.path ++ ["tests", "main_test.cpp"], stub) :: fs.files })))
    ∧ (testStubTemplate .Doctest = some "doctest_main.cpp"
      ∧ testStubTemplate .GTest = some "gtest_main.cpp"
      ∧ testStubTemplate .Catch2 = some "catch2_main.cpp"
      ∧ testStubTemplate .BoostTest = some "boost_test_main.cpp"
      ∧ testStubTemplate .None = none) := by
  refine ⟨?_, ?_, by decide⟩
  · intro h
    simp [generate_test_files, h]
  · intro stub hne hstub
    cases hb : config.build_system <;> cases htf : config.test_framework <;>
      rw [htf] at hstub <;> simp [testStubTemplate] at hstub <;> subst hstub <;>
      constructor <;> intro hb2 <;> simp_all <;>
      simp [generate_test_files, htf, hb, testStubTemplate,
        renderTemplate, registeredTemplates, StepOut.andThen]

/-- Closed instance of `test_files_generation`: with CMake and Doctest both
the test build file and the Doctest stub are rendered. -/
theorem test_files_generation_witness :
    generate_test_files { sampleConfig with test_framework := .Doctest } ⟨[], [], []⟩ =
      .ok ⟨[], [(["home", "demo", "tests", "main_test.cpp"], "doctest_main.cpp"),
        (["home", "demo", "tests", "CMakeLists.txt"], "tests.cmake")], []⟩ :=
  ((test_files_generation { sampleConfig with test_framework := .Doctest }
    ⟨[], [], []⟩).2.1 "doctest_main.cpp" (by decide) (by decide)).1 rfl

/-! ## Claim C6: compiler version check -/

set_option maxRecDepth 8000

/-- C6: `check_compiler_version` succeeds silently whenever no version can
be extracted from the version string; when a version is extracted, it fails
— with the found and required versions — exactly when the parsed `f32`
value of the version is strictly below the `f32` value of the threshold of
the chosen standard; the threshold table is C++11 → 4.8, C++14 → 5.0,
C++17 → 7.0, C++20 → 10.0, C++23 → 12.0.  The closed conjuncts instantiate
this at real `g++ --version` first lines — GCC 12.2 passes the C++23 check
and GCC 11.4 fails it — and exhibit the `f32` rounding of the parse:
`"4.9999999"` parses to exactly `5.0f32`, so GCC "4.9999999" passes the
C++14 check even though the decimal is below 5. -/
theorem compiler_check_spec :
    (∀ (std : CppStandard) (s : String),
      extract_gcc_version s = none → check_compiler_version std s = .ok ())
    ∧ (∀ (std : CppStandard) (s : String) (v : Decimal),
        extract_gcc_version s = some v →
        check_compiler_version std s =
          (if F32.lt v.toF32 (required_gcc_version std).toF32 then
            .error (.compilerTooOld v (required_gcc_version std))
          else .ok ()))
    ∧ ((required_gcc_version .Cpp11).toRat = 4.8
      ∧ (required_gcc_version .Cpp14).toRat = 5
      ∧ (required_gcc_version .Cpp17).toRat = 7
      ∧ (required_gcc_version .Cpp20).toRat = 10
      ∧ (required_gcc_version .Cpp23).toRat = 12)
    ∧ check_compiler_version .Cpp23 "g++ (GCC) 12.2.0" = .ok ()
    ∧ check_compiler_version .Cpp23 "g++ (Ubuntu 11.4.0-1ubuntu1~22.04) 11.4.0" =
        .error (.compilerTooOld ⟨11, 4, 1⟩ ⟨12, 0, 1⟩)
    ∧ (Decimal.toF32 ⟨4, 9999999, 7⟩ = Decimal.toF32 ⟨5, 0, 1⟩
      ∧ check_compiler_version .Cpp14 "g++ (GCC) 4.9999999" = .ok ()) := by
  refine ⟨?_, ?_, ⟨?_, ?_, ?_, ?_, ?_⟩, by decide, by decide, by decide, by decide⟩
  · intro std s h
    simp [check_compiler_version, h]
  · intro std s v h
    simp [check_compiler_version, h]
  all_goals norm_num [required_gcc_version, Decimal.toRat]

/-- Closed instance of `compiler_check_spec`: an unparseable version string
passes the check silently. -/
theorem compiler_check_spec_witness :
    check_compiler_version .Cpp23 "g++ version unknown" = .ok () :=
  compiler_check_spec.1 .Cpp23 "g++ version unknown" (by decide)

/-! ## Claim C7: the standard subdirectory set -/

/-- C7: `create_directory_structure` always succeeds, creates no files, and
— for paths not already present — creates `examples` exactly for libraries,
`assets` exactly for executables, and `tests` exactly when a test framework
other than `None` is selected. -/
theorem directory_structure_spec (config : ProjectConfig) (fs : FileSystem)
    (hex : (config.path ++ ["examples"]) ∉ fs.dirs)
    (has : (config.path ++ ["assets"]) ∉ fs.dirs)
    (hts : (config.path ++ ["tests"]) ∉ fs.dirs) :
    ∃ fs', create_directory_structure config fs = .ok fs'
      ∧ fs'.files = fs.files
      ∧ ((config.path ++ ["examples"]) ∈ fs'.dirs ↔ config.project_type = .Library)
      ∧ ((config.path ++ ["assets"]) ∈ fs'.dirs ↔ config.project_type = .Executable)
      ∧ ((config.path ++ ["tests"]) ∈ fs'.dirs ↔ config.test_framework ≠ .None) := by
  cases hp : config.project_type <;> cases ht : config.test_framework <;>
    refine ⟨_, rfl, ?_⟩ <;>
    simp [create_directory_structure, standardDirs, createDirAll, hp, ht,
      List.append_right_inj, hex, has, hts]

/-- Closed instance of `directory_structure_spec` at the scenario-A
configuration (executable, no tests) over an empty target directory. -/
theorem directory_structure_spec_witness :
    ∃ fs', create_directory_structure sampleConfig baseFs = .ok fs'
      ∧ fs'.files = baseFs.files
      ∧ ((sampleConfig.path ++ ["examples"]) ∈ fs'.dirs ↔
          sampleConfig.project_type = .Library)
      ∧ ((sampleConfig.path ++ ["assets"]) ∈ fs'.dirs ↔
          sampleConfig.project_type = .Executable)
      ∧ ((sampleConfig.path ++ ["tests"]) ∈ fs'.dirs ↔
          sampleConfig.test_framework ≠ .None) :=
  directory_structure_spec sampleConfig baseFs (by decide) (by decide) (by decide)

/-! ## Claim C8: the `contains` template helper -/

/-- C8: `contains_helper` writes the truthy string `"true"` exactly when
some comma-separated item of its first argument, trimmed of surrounding
whitespace, equals the second argument as a whole token, and the falsy
empty string otherwise; applied to the comma-joined `QualityConfig` display
string, the helper recovers exactly the enabled-tool flags, and a proper
substring of an item (`"tidy"`) is not a match. -/
theorem contains_helper_spec (list value : String) :
    (contains_helper list value = "true" ↔
      ∃ item ∈ splitOnComma list.toList, trimChars item = value.toList)
    ∧ (contains_helper list value = "" ↔
      ¬ ∃ item ∈ splitOnComma list.toList, trimChars item = value.toList)
    ∧ (∀ q : QualityConfig,
        containsToken q.display "clang-tidy" = q.enable_clang_tidy
        ∧ containsToken q.display "cppcheck" = q.enable_cppcheck
        ∧ containsToken q.display "include-what-you-use" = q.enable_include_what_you_use)
    ∧ containsToken "clang-tidy,cppcheck" "tidy" = false := by
  have key : containsToken list value = true ↔
      ∃ item ∈ splitOnComma list.toList, trimChars item = value.toList := by
    simp [containsToken, List.any_eq_true]
  refine ⟨?_, ?_, ?_, by decide⟩
  · rw [← key]
    cases hb : containsToken list value <;> simp [contains_helper, hb]
  · rw [← key]
    cases hb : containsToken list value <;> simp [contains_helper, hb]
  · intro q
    obtain ⟨a, b, c⟩ := q
    cases a <;> cases b <;> cases c <;> exact (by decide)

/-- Closed instance of `contains_helper_spec`: whole-token membership in a
`", "`-joined list, found despite the space before the item. -/
theorem contains_helper_spec_witness :
    contains_helper "clang-tidy, cppcheck" "cppcheck" = "true" :=
  ((contains_helper_spec "clang-tidy, cppcheck" "cppcheck").1).mpr (by decide)

/-! ## Claim C9: git initialization ignores the exit status -/

/-- A Make-based library configuration with git and every optional render
enabled. -/
def makeFullConfig : ProjectConfig :=
  { sampleConfig with
    project_type := .Library
    build_system := .Make
    test_framework := .Doctest
    package_manager := .Conan
    use_git := true
    quality_config := ⟨true, true, true⟩
    code_formatter := ⟨true, true⟩ }

/-- `true` when the build step succeeded and `.gitignore` was rendered into
`makeFullConfig`'s project root. -/
def gitignoreRendered : StepOut → Bool
  | .ok fs => fs.files.contains (makeFullConfig.path ++ [".gitignore"], "gitignore")
  | .fail _ _ => false

/-- C9: with `use_git` set, `initialize_git` fails exactly when the `git`
process cannot be spawned; when the process runs, its exit code — whatever
it is — is ignored and `.gitignore` is rendered.  The closed conjunct runs
the whole builder with a `git init` that exits with status 1: the build
still succeeds and `.gitignore` is still rendered. -/
theorem git_init_spec (config : ProjectConfig) (fs : FileSystem)
    (hgit : config.use_git = true) :
    initialize_git config .spawnError fs = .fail .gitSpawnFailed fs
    ∧ (∀ code : Int,
        initialize_git config (.exited code) fs =
          .ok { fs with files := (config.path ++ [".gitignore"], "gitignore") :: fs.files })
    ∧ gitignoreRendered (build makeFullConfig (.exited 1) ⟨[], [], []⟩) = true := by
  refine ⟨?_, ?_, by decide⟩
  · simp [initialize_git, hgit]
  · intro code
    simp [initialize_git, hgit, renderTemplate, registeredTemplates]

/-- Closed instance of `git_init_spec`: a `git init` that ran and exited
with code 1 does not fail the step, and `.gitignore` is rendered. -/
theorem git_init_spec_witness :
    initialize_git makeFullConfig (.exited 1) ⟨[], [], []⟩ =
      .ok ⟨[], [(["home", "demo", ".gitignore"], "gitignore")], []⟩ :=
  (git_init_spec makeFullConfig ⟨[], [], []⟩ rfl).2.1 1

/-! ## Claim C10: `src`, `cmake` and `include` are created unconditionally -/

/-- `true` when the build step succeeded and no file of the result lies
under the `cmake` subdirectory of `makeFullConfig`'s project root. -/
def noFileUnderCmakeDir : StepOut → Bool
  | .ok fs => fs.files.all fun f => !(List.isPrefixOf (makeFullConfig.path ++ ["cmake"]) f.1)
  | .fail _ _ => false

/-- C10: every configuration gets the subdirectories `src`, `cmake` and
`include` under the project root — the `cmake` directory regardless of the
build system.  The closed conjunct runs the whole builder on a Make-based
configuration: the build succeeds with no file ever written under
`cmake/`, even though the directory was created. -/
theorem unconditional_standard_dirs (config : ProjectConfig) (fs : FileSystem) :
    (∃ fs', create_directory_structure config fs = .ok fs'
      ∧ (config.path ++ ["src"]) ∈ fs'.dirs
      ∧ (config.path ++ ["cmake"]) ∈ fs'.dirs
      ∧ (config.path ++ ["include"]) ∈ fs'.dirs)
    ∧ noFileUnderCmakeDir (build makeFullConfig (.exited 0) ⟨[], [], []⟩) = true := by
  constructor
  · cases hp : config.project_type <;> cases ht : config.test_framework <;>
      refine ⟨_, rfl, ?_⟩ <;>
      simp [create_directory_structure, standardDirs, createDirAll, hp, ht]
  · decide

/-- Closed instance of `unconditional_standard_dirs` at the scenario-A
configuration. -/
theorem unconditional_standard_dirs_witness :
    ∃ fs', create_directory_structure sampleConfig baseFs = .ok fs'
      ∧ (sampleConfig.path ++ ["src"]) ∈ fs'.dirs
      ∧ (sampleConfig.path ++ ["cmake"]) ∈ fs'.dirs
      ∧ (sampleConfig.path ++ ["include"]) ∈ fs'.dirs :=
  (unconditional_standard_dirs sampleConfig baseFs).1
